import Mathlib

/-!
# Verification of the pitching-metrics scoring engine

Shallow embedding of the two source files of the repository:

* `metrics.py` — the fixed-parameter catalog variant (`MetricInfo.calculate_score`,
  `ALL_METRICS`), embedded in namespace `Metrics`;
* `update_combine_matrix.py` — the banded, profile-aware variant
  (`SightFXMetricsCalculator`), embedded in namespace `SightFX`.

Modelling conventions:

* Python floats are embedded as exact rationals (`ℚ`); decimal literals such as
  `0.3` denote the exact decimal value.  `round(score, 1)` is embedded as
  rounding to one decimal with ties to even (`round1`), Python's documented
  rounding mode.
* `raise ValueError(...)` is embedded as `Except.error` carrying a constructor
  that identifies the raise site; the interpolated message text is not modelled.
* `math.exp` (used only by `score_target_based_metric`) is transcendental, so it
  is abstracted as an explicit function parameter `expFn`; every theorem below
  that touches it holds for an arbitrary `expFn`, because the exponential's
  value only ever feeds the final clamp.
* The calculator's two in-memory tables (`metrics_db`, a dict keyed by metric
  name, and `bands_db`, a list) are embedded as lists; `uuid4` metric ids are
  abstracted to `Nat` (their only role is linking bands to metrics).
-/

/-- Substring helper: does `l` start with `pat`?  (Used to embed Python's
`in` substring test on strings.) -/
def listStartsWith : List Char → List Char → Bool
  | [], _ => true
  | _ :: _, [] => false
  | a :: as, b :: bs => a = b && listStartsWith as bs

/-- Does `pat` occur as a contiguous substring of `l`? -/
def listHasSub (pat : List Char) : List Char → Bool
  | [] => listStartsWith pat []
  | c :: t => listStartsWith pat (c :: t) || listHasSub pat t

/-- Embedding of Python's `pat in s` substring containment on strings. -/
def strContains (s pat : String) : Bool :=
  listHasSub pat.data s.data

/-- Round a rational to the nearest integer, ties to even (Python `round`). -/
def roundHalfEven (q : ℚ) : ℤ :=
  if q - ⌊q⌋ < 1/2 then ⌊q⌋
  else if 1/2 < q - ⌊q⌋ then ⌊q⌋ + 1
  else if ⌊q⌋ % 2 = 0 then ⌊q⌋ else ⌊q⌋ + 1

/-- Embedding of Python's `round(x, 1)`: round to one decimal place. -/
def round1 (q : ℚ) : ℚ :=
  (roundHalfEven (10 * q) : ℚ) / 10

namespace Metrics

/-! ## Embedding of `metrics.py` -/

/-- `ScoreType` enum (metrics.py lines 10-14). -/
inductive ScoreType
  | OPTIMAL_RANGE
  | LOWER_IS_BETTER
  | HIGHER_IS_BETTER
  | INJURY_RISK
deriving DecidableEq, Repr

/-- The `default_params` dict of a metric: each key that `calculate_score`
ever reads, as an optional rational (`params.get(key)` semantics). -/
structure Params where
  optimal_min : Option ℚ := none
  optimal_max : Option ℚ := none
  bad_low_threshold : Option ℚ := none
  bad_high_threshold : Option ℚ := none
  optimal_upper_bound : Option ℚ := none
  poor_threshold : Option ℚ := none
  optimal_lower_bound : Option ℚ := none
  warning_threshold : Option ℚ := none
  critical_threshold : Option ℚ := none
deriving DecidableEq, Repr

/-- One `raise ValueError` site of `MetricInfo.calculate_score`; the
constructor identifies the site, the message text is not modelled. -/
inductive ScoreError
  | missingOptimalRangeParams
  | invalidOptimalRange
  | badLowNotBelowOptimalMin
  | badHighNotAboveOptimalMax
  | missingLowerIsBetterParams
  | invalidLowerIsBetterParams
  | missingOrInvalidHigherIsBetter
  | missingInjuryRiskParams
deriving DecidableEq, Repr

/-- `MetricInfo` (metrics.py lines 17-27). -/
structure MetricInfo where
  name : String
  unit : String
  score_type : ScoreType
  description : String
  default_params : Params
deriving DecidableEq, Repr

/-- `MIN_SCORE_VALUE = 1.0` (metrics.py line 6). -/
def MIN_SCORE_VALUE : ℚ := 1

/-- Effective low falloff threshold for `OPTIMAL_RANGE`
(metrics.py line 50): the explicit `bad_low_threshold` if present, else
`0` when `optimal_min > 0`, else `optimal_min - (optimal_max - optimal_min)`. -/
def finalBadLowThreshold (p : Params) (om oM : ℚ) : ℚ :=
  match p.bad_low_threshold with
  | some b => b
  | none => if 0 < om then 0 else om - (oM - om)

/-- Effective high falloff threshold for `OPTIMAL_RANGE`
(metrics.py line 51): the explicit `bad_high_threshold` if present, else
`100` when the unit is `"%"`, else `optimal_max * 2` when `optimal_max > 0`,
else `optimal_max + (optimal_max - optimal_min)`. -/
def finalBadHighThreshold (unit : String) (p : Params) (om oM : ℚ) : ℚ :=
  match p.bad_high_threshold with
  | some b => b
  | none =>
    if unit = "%" then 100
    else if 0 < oM then oM * 2 else oM + (oM - om)

/-- The body of `MetricInfo.calculate_score` (metrics.py lines 29-131)
up to, but not including, the final `round(score, 1)`. -/
def calculate_score_raw (m : MetricInfo) (value : ℚ) : Except ScoreError ℚ :=
  let params := m.default_params
  match m.score_type with
  | ScoreType.OPTIMAL_RANGE =>
    match params.optimal_min, params.optimal_max with
    | some om, some oM =>
      if ¬ om ≤ oM then Except.error ScoreError.invalidOptimalRange
      else
        let bl := finalBadLowThreshold params om oM
        let bh := finalBadHighThreshold m.unit params om oM
        if ¬ bl < om then Except.error ScoreError.badLowNotBelowOptimalMin
        else if ¬ oM < bh then Except.error ScoreError.badHighNotAboveOptimalMax
        else if om ≤ value ∧ value ≤ oM then Except.ok 100
        else if value < om then
          if value ≤ bl then Except.ok MIN_SCORE_VALUE
          else Except.ok (max MIN_SCORE_VALUE
            (MIN_SCORE_VALUE + ((value - bl) / (om - bl)) * (100 - MIN_SCORE_VALUE)))
        else if oM < value then
          if bh ≤ value then Except.ok MIN_SCORE_VALUE
          else Except.ok (max MIN_SCORE_VALUE
            (100 - ((value - oM) / (bh - oM)) * (100 - MIN_SCORE_VALUE)))
        else Except.ok 0  -- unreachable: `score` keeps its 0.0 initialisation
    | _, _ => Except.error ScoreError.missingOptimalRangeParams
  | ScoreType.LOWER_IS_BETTER =>
    match params.optimal_upper_bound, params.poor_threshold with
    | some oub, some pt =>
      if ¬ (0 ≤ oub ∧ oub < pt) then Except.error ScoreError.invalidLowerIsBetterParams
      else if value ≤ oub then Except.ok 100
      else if pt ≤ value then Except.ok MIN_SCORE_VALUE
      else Except.ok (max MIN_SCORE_VALUE
        (100 - ((value - oub) / (pt - oub)) * (100 - MIN_SCORE_VALUE)))
    | _, _ => Except.error ScoreError.missingLowerIsBetterParams
  | ScoreType.HIGHER_IS_BETTER =>
    match params.optimal_lower_bound with
    | some olb =>
      if olb ≤ 0 then Except.error ScoreError.missingOrInvalidHigherIsBetter
      else if olb ≤ value then Except.ok 100
      else if value ≤ 0 then Except.ok MIN_SCORE_VALUE
      else Except.ok (max MIN_SCORE_VALUE (value / olb * 100))
    | none => Except.error ScoreError.missingOrInvalidHigherIsBetter
  | ScoreType.INJURY_RISK =>
    match params.warning_threshold, params.critical_threshold with
    | some wt, some ct =>
      if ct ≤ wt then
        if value ≤ wt then Except.ok 100 else Except.ok MIN_SCORE_VALUE
      else if value ≤ wt then Except.ok 100
      else if ct ≤ value then Except.ok MIN_SCORE_VALUE
      else Except.ok (max MIN_SCORE_VALUE
        (100 - (value - wt) / (ct - wt) * (100 - MIN_SCORE_VALUE)))
    | _, _ => Except.error ScoreError.missingInjuryRiskParams

/-- `MetricInfo.calculate_score` (metrics.py lines 29-131), including the
final `return round(score, 1)`. -/
def calculate_score (m : MetricInfo) (value : ℚ) : Except ScoreError ℚ :=
  (calculate_score_raw m value).map round1

/-- Catalog entry "Knee Lift Height" (metrics.py line 145). -/
def metricKneeLiftHeight : MetricInfo :=
  ⟨"Knee Lift Height", "°", ScoreType.OPTIMAL_RANGE,
   "Hip flexion angle of lead knee at peak lift. Higher is generally better for load.",
   { optimal_min := some 45, optimal_max := some 90 }⟩

/-- Catalog entry "Balance Duration" (metrics.py line 148): note that its
`bad_high_threshold` (0.8) is below its `optimal_max` (0.9). -/
def metricBalanceDuration : MetricInfo :=
  ⟨"Balance Duration", "s", ScoreType.OPTIMAL_RANGE,
   "Time spent at peak knee lift. Optimal is generally shorter for elite, suggesting quick rhythm.",
   { optimal_min := some 0.3, optimal_max := some 0.9, bad_high_threshold := some 0.8 }⟩

/-- Catalog entry "Weight Distribution (Windup)" (metrics.py line 154): note
that its `bad_low_threshold` (80) is above its `optimal_min` (75). -/
def metricWeightDistributionWindup : MetricInfo :=
  ⟨"Weight Distribution (Windup)", "% Back", ScoreType.OPTIMAL_RANGE,
   "Percentage of weight on back leg at maximum knee lift. Critical for momentum generation.",
   { optimal_min := some 75, optimal_max := some 85, bad_low_threshold := some 80,
     bad_high_threshold := some 100 }⟩

/-- Catalog entry "Elbow Valgus Torque" (metrics.py line 332). -/
def metricElbowValgusTorque : MetricInfo :=
  ⟨"Elbow Valgus Torque", "Nm", ScoreType.INJURY_RISK,
   "High medial elbow stress increases UCL injury risk.",
   { warning_threshold := some 40, critical_threshold := some 55 }⟩

/-- The `ALL_METRICS` catalog (metrics.py lines 134-349) in insertion order.
`add_metric` keys the dict by `name`; all 62 names are distinct, so the dict
is exactly this ordered list. -/
def ALL_METRICS : List MetricInfo := [
  metricKneeLiftHeight,
  metricBalanceDuration,
  ⟨"Trunk Rotation (Windup)", "°", ScoreType.OPTIMAL_RANGE,
   "Initial rotation away from home plate during windup. Allows for counter-rotation.",
   { optimal_min := some 15, optimal_max := some 25, bad_high_threshold := some 30 }⟩,
  metricWeightDistributionWindup,
  ⟨"Weight Distribution", "% Back", ScoreType.OPTIMAL_RANGE,
   "Percentage of weight on back leg at maximum knee lift. Critical for momentum generation.",
   { optimal_min := some 85, optimal_max := some 95, bad_low_threshold := some 80,
     bad_high_threshold := some 100 }⟩,
  ⟨"Balance Stability Index", "cm deviation", ScoreType.LOWER_IS_BETTER,
   "Quantifies COM maintenance during leg lift (lower deviation is better). Optimal <2cm, poor >5cm.",
   { optimal_upper_bound := some 2, poor_threshold := some 5 }⟩,
  ⟨"Posture Alignment (Windup)", "° variation", ScoreType.LOWER_IS_BETTER,
   "Spine angle consistency during windup (lower variation is better). Optimal <3°, poor >8°.",
   { optimal_upper_bound := some 3, poor_threshold := some 8 }⟩,
  ⟨"Tempo Consistency (Windup)", "s", ScoreType.LOWER_IS_BETTER,
   "Variation in timing between pitches during windup. Indicates rhythm consistency. Optimal <0.05s, poor >0.2s.",
   { optimal_upper_bound := some 0.05, poor_threshold := some 0.2 }⟩,
  ⟨"Head Stability (Windup)", "cm displacement", ScoreType.LOWER_IS_BETTER,
   "Movement of head during leg lift (lower displacement is better). Optimal <2cm, poor >4cm.",
   { optimal_upper_bound := some 2, poor_threshold := some 4 }⟩,
  ⟨"Lead Leg Path Efficiency", "cm lateral deviation", ScoreType.LOWER_IS_BETTER,
   "Directness of knee lift trajectory (lower deviation is better). Optimal <5cm, poor >10cm.",
   { optimal_upper_bound := some 5, poor_threshold := some 10 }⟩,
  ⟨"Stride Length", "% Height", ScoreType.OPTIMAL_RANGE,
   "Distance as percentage of pitcher's height. Affects effective velocity and force.",
   { optimal_min := some 80, optimal_max := some 90, bad_low_threshold := some 70,
     bad_high_threshold := some 95 }⟩,
  ⟨"Stride Direction", "° Closed", ScoreType.OPTIMAL_RANGE,
   "Angle of stride foot relative to center line (0-5° closed is optimal). Aids hip-shoulder separation.",
   { optimal_min := some 0, optimal_max := some 5, bad_low_threshold := some (-10),
     bad_high_threshold := some 10 }⟩,
  ⟨"Knee Flexion at Peak (Stride)", "°", ScoreType.OPTIMAL_RANGE,
   "Flexion angle of lead knee during stride. Affects absorption and bracing.",
   { optimal_min := some 35, optimal_max := some 45, bad_low_threshold := some 25,
     bad_high_threshold := some 60 }⟩,
  ⟨"Hip-Shoulder Separation (Stride FC)", "°", ScoreType.OPTIMAL_RANGE,
   "Rotational difference between hips and shoulders at foot contact. Key for elastic energy.",
   { optimal_min := some 40, optimal_max := some 50, bad_low_threshold := some 30,
     bad_high_threshold := some 60 }⟩,
  ⟨"Pelvic Tilt", "° anterior tilt", ScoreType.OPTIMAL_RANGE,
   "Anterior/posterior pelvic positioning (Elite optimal).",
   { optimal_min := some 5, optimal_max := some 15, bad_low_threshold := some 0,
     bad_high_threshold := some 20 }⟩,
  ⟨"Center of Mass Trajectory", "cm vertical displacement", ScoreType.LOWER_IS_BETTER,
   "Path of COM during stride (lower displacement is better). Optimal <3cm, poor >6cm.",
   { optimal_upper_bound := some 3, poor_threshold := some 6 }⟩,
  ⟨"Front Foot Landing Pattern", "° Closed", ScoreType.OPTIMAL_RANGE,
   "Foot position and angle at contact (10-20° closed is optimal).",
   { optimal_min := some 10, optimal_max := some 20, bad_low_threshold := some 0,
     bad_high_threshold := some 30 }⟩,
  ⟨"Timing Efficiency (Stride)", "s", ScoreType.OPTIMAL_RANGE,
   "Duration from leg lift to foot contact (Adult Elite optimal).",
   { optimal_min := some 0.5, optimal_max := some 0.7, bad_high_threshold := some 0.9 }⟩,
  ⟨"Shoulder External Rotation", "°", ScoreType.OPTIMAL_RANGE,
   "Shoulder rotation at maximum external rotation (MER).",
   { optimal_min := some 165, optimal_max := some 185, bad_low_threshold := some 150,
     bad_high_threshold := some 195 }⟩,
  ⟨"Shoulder Abduction (FC)", "°", ScoreType.OPTIMAL_RANGE,
   "Shoulder abduction angle at foot contact.",
   { optimal_min := some 85, optimal_max := some 100, bad_low_threshold := some 75,
     bad_high_threshold := some 110 }⟩,
  ⟨"Elbow Flexion (FC)", "°", ScoreType.OPTIMAL_RANGE,
   "Elbow flexion angle at foot contact.",
   { optimal_min := some 65, optimal_max := some 95, bad_low_threshold := some 50,
     bad_high_threshold := some 100 }⟩,
  ⟨"Hip-Shoulder Separation (Cock)", "°", ScoreType.OPTIMAL_RANGE,
   "Peak rotational difference between hips and shoulders.",
   { optimal_min := some 45, optimal_max := some 65, bad_low_threshold := some 30,
     bad_high_threshold := some 75 }⟩,
  ⟨"Pelvis Rotation Velocity", "°/s", ScoreType.OPTIMAL_RANGE,
   "Angular speed of pelvis rotation.",
   { optimal_min := some 700, optimal_max := some 850, bad_low_threshold := some 500,
     bad_high_threshold := some 1000 }⟩,
  ⟨"Trunk Rotation Velocity", "°/s", ScoreType.OPTIMAL_RANGE,
   "Angular speed of trunk rotation.",
   { optimal_min := some 1100, optimal_max := some 1300, bad_low_threshold := some 850,
     bad_high_threshold := some 1500 }⟩,
  ⟨"Arm Slot Consistency (Cock)", "°", ScoreType.LOWER_IS_BETTER,
   "Variation in arm position at MER between pitches (lower is better). Optimal <3°, poor >8°.",
   { optimal_upper_bound := some 3, poor_threshold := some 8 }⟩,
  ⟨"Elbow Height (MER)", "cm relative to shoulder", ScoreType.OPTIMAL_RANGE,
   "Position of elbow relative to shoulder at MER (-5cm to +5cm is optimal).",
   { optimal_min := some (-5), optimal_max := some 5, bad_low_threshold := some (-10),
     bad_high_threshold := some 10 }⟩,
  ⟨"Trunk Forward Tilt (MER)", "°", ScoreType.OPTIMAL_RANGE,
   "Forward lean from vertical at MER.",
   { optimal_min := some 20, optimal_max := some 30, bad_low_threshold := some 15,
     bad_high_threshold := some 40 }⟩,
  ⟨"Trunk Lateral Tilt (MER)", "°", ScoreType.OPTIMAL_RANGE,
   "Side bend toward non-throwing side at MER.",
   { optimal_min := some 15, optimal_max := some 25, bad_low_threshold := some 10,
     bad_high_threshold := some 35 }⟩,
  ⟨"Kinetic Chain Sequencing (Timing)", "s", ScoreType.OPTIMAL_RANGE,
   "Timing delay between peak segment velocities (e.g., pelvis-trunk, trunk-arm).",
   { optimal_min := some 0.015, optimal_max := some 0.025, bad_low_threshold := some 0.01,
     bad_high_threshold := some 0.035 }⟩,
  ⟨"Lead Leg Bracing", "° knee extension variation", ScoreType.LOWER_IS_BETTER,
   "Stability of lead leg during cocking (lower variation is better). Optimal <3°, poor >8°.",
   { optimal_upper_bound := some 3, poor_threshold := some 8 }⟩,
  ⟨"Shoulder Internal Rotation Velocity", "°/s", ScoreType.OPTIMAL_RANGE,
   "Angular speed of shoulder internal rotation during acceleration. Optimal 7000-8500°/s.",
   { optimal_min := some 7000, optimal_max := some 8500, bad_low_threshold := some 6000,
     bad_high_threshold := some 9500 }⟩,
  ⟨"Elbow Extension Velocity", "°/s", ScoreType.OPTIMAL_RANGE,
   "Speed of elbow straightening during acceleration. Optimal 2200-2700°/s.",
   { optimal_min := some 2200, optimal_max := some 2700, bad_low_threshold := some 1800,
     bad_high_threshold := some 3000 }⟩,
  ⟨"Trunk Forward Tilt (Release)", "°", ScoreType.OPTIMAL_RANGE,
   "Forward lean from vertical at ball release.",
   { optimal_min := some 38, optimal_max := some 48, bad_low_threshold := some 30,
     bad_high_threshold := some 55 }⟩,
  ⟨"Trunk Lateral Tilt (Release)", "°", ScoreType.OPTIMAL_RANGE,
   "Side bend angle toward non-throwing side at ball release.",
   { optimal_min := some 15, optimal_max := some 25, bad_low_threshold := some 10,
     bad_high_threshold := some 30 }⟩,
  ⟨"Pitch Velocity", "mph", ScoreType.HIGHER_IS_BETTER,
   "Speed of the ball at release.",
   { optimal_lower_bound := some 90 }⟩,
  ⟨"Spin Rate", "rpm", ScoreType.HIGHER_IS_BETTER,
   "Ball rotation at release (generally higher is better for fastballs).",
   { optimal_lower_bound := some 2100 }⟩,
  ⟨"Extension", "ft", ScoreType.HIGHER_IS_BETTER,
   "Distance from rubber at release.",
   { optimal_lower_bound := some 6.3 }⟩,
  ⟨"Release Height", "% of Height", ScoreType.OPTIMAL_RANGE,
   "Height of release point as percentage of pitcher's height.",
   { optimal_min := some 81, optimal_max := some 86, bad_low_threshold := some 75,
     bad_high_threshold := some 88 }⟩,
  ⟨"Release Point Consistency", "cm", ScoreType.LOWER_IS_BETTER,
   "Variation in release position between pitches (lower is better). Optimal <2cm, poor >5cm.",
   { optimal_upper_bound := some 2, poor_threshold := some 5 }⟩,
  ⟨"Arm Slot at Release", "° SD", ScoreType.OPTIMAL_RANGE,
   "Standard deviation of arm slot at release between pitches. Optimal 1-2° SD, poor >4°.",
   { optimal_min := some 1, optimal_max := some 2, bad_low_threshold := some 0,
     bad_high_threshold := some 4 }⟩,
  ⟨"Stride Length to Release Distance", "% of height", ScoreType.OPTIMAL_RANGE,
   "Distance from stride foot to release point as % of pitcher's height.",
   { optimal_min := some 85, optimal_max := some 95, bad_low_threshold := some 80,
     bad_high_threshold := some 100 }⟩,
  ⟨"Trunk Stabilization", "° change post-FCP", ScoreType.LOWER_IS_BETTER,
   "Trunk acceleration deceleration post-Foot Contact (lower change is better). Optimal <5°, poor >10°.",
   { optimal_upper_bound := some 5, poor_threshold := some 10 }⟩,
  ⟨"Hand Position at Release", "° variation", ScoreType.OPTIMAL_RANGE,
   "Orientation of hand and fingers at release (lower variation is better). Optimal 1-2° variation, poor >5°.",
   { optimal_min := some 1, optimal_max := some 2, bad_low_threshold := some 0,
     bad_high_threshold := some 5 }⟩,
  ⟨"Balance Recovery Time", "s", ScoreType.OPTIMAL_RANGE,
   "Time to stable fielding-ready position after release.",
   { optimal_min := some 0.3, optimal_max := some 0.5, bad_high_threshold := some 0.8 }⟩,
  ⟨"Deceleration Path Efficiency", "° arc", ScoreType.OPTIMAL_RANGE,
   "Path of arm during deceleration (gradual 60-80° arc is optimal).",
   { optimal_min := some 60, optimal_max := some 80, bad_low_threshold := some 45,
     bad_high_threshold := some 90 }⟩,
  ⟨"Controlled Eccentricity", "% slowdown", ScoreType.OPTIMAL_RANGE,
   "Rate of arm deceleration (25-35% gradual slowdown is optimal).",
   { optimal_min := some 25, optimal_max := some 35, bad_low_threshold := some 15,
     bad_high_threshold := some 50 }⟩,
  ⟨"Balance Retention (Follow-Through)", "cm lateral displacement", ScoreType.LOWER_IS_BETTER,
   "COM control during follow-through (lower displacement is better). Optimal <5cm, poor >10cm.",
   { optimal_upper_bound := some 5, poor_threshold := some 10 }⟩,
  ⟨"Front Knee Control", "° controlled flexion", ScoreType.OPTIMAL_RANGE,
   "Stability of front leg during follow-through (10-20° controlled flexion is optimal).",
   { optimal_min := some 10, optimal_max := some 20, bad_low_threshold := some 0,
     bad_high_threshold := some 30 }⟩,
  ⟨"Rotational Completion", "° toward target", ScoreType.OPTIMAL_RANGE,
   "Degree of body rotation completion toward target.",
   { optimal_min := some 80, optimal_max := some 100, bad_low_threshold := some 70,
     bad_high_threshold := some 110 }⟩,
  ⟨"Head Position Tracking (Follow-Through)", "cm vertical drop", ScoreType.LOWER_IS_BETTER,
   "Head movement during follow-through (lower vertical drop is better). Optimal <4cm, poor >8cm.",
   { optimal_upper_bound := some 4, poor_threshold := some 8 }⟩,
  ⟨"Energy Dissipation Rate", "% per 0.1s", ScoreType.OPTIMAL_RANGE,
   "Gradual reduction in system energy (30-40% per 0.1s is optimal).",
   { optimal_min := some 30, optimal_max := some 40, bad_low_threshold := some 10,
     bad_high_threshold := some 60 }⟩,
  ⟨"Ground Force Utilization", "x Body Weight", ScoreType.OPTIMAL_RANGE,
   "Transfer of ground reaction force (1.2-1.5x body weight is optimal).",
   { optimal_min := some 1.2, optimal_max := some 1.5, bad_low_threshold := some 1,
     bad_high_threshold := some 2 }⟩,
  ⟨"Energy Transfer Efficiency", "%", ScoreType.OPTIMAL_RANGE,
   "Percentage of energy transferred up kinetic chain.",
   { optimal_min := some 80, optimal_max := some 90, bad_low_threshold := some 70,
     bad_high_threshold := some 100 }⟩,
  ⟨"Joint Torque Distribution", "% variation", ScoreType.LOWER_IS_BETTER,
   "Balanced loading across joints (lower variation is better). Optimal <25%, poor >40%.",
   { optimal_upper_bound := some 25, poor_threshold := some 40 }⟩,
  ⟨"Movement Plane Consistency", "° deviation", ScoreType.LOWER_IS_BETTER,
   "Minimization of out-of-plane motion (lower deviation is better). Optimal <5°, poor >10°.",
   { optimal_upper_bound := some 5, poor_threshold := some 10 }⟩,
  ⟨"Shoulder Maximum External Rotation (Risk)", "°", ScoreType.INJURY_RISK,
   "Excessive shoulder external rotation increases labral tear risk.",
   { warning_threshold := some 185, critical_threshold := some 195 }⟩,
  metricElbowValgusTorque,
  ⟨"Lead Knee Extension Rate", "°/s", ScoreType.INJURY_RISK,
   "Rapid knee extension creates landing stress (higher is riskier).",
   { warning_threshold := some 250, critical_threshold := some 350 }⟩,
  ⟨"Shoulder Horizontal Abduction", "° at FC", ScoreType.INJURY_RISK,
   "Extreme layback position stresses posterior capsule (higher is riskier).",
   { warning_threshold := some 15, critical_threshold := some 25 }⟩,
  ⟨"Trunk Lateral Tilt Timing (Risk)", "° before FC", ScoreType.INJURY_RISK,
   "Early side-bending increases spine stress (higher is riskier).",
   { warning_threshold := some 15, critical_threshold := some 25 }⟩,
  ⟨"Deceleration Control (Risk)", "% per 0.1s", ScoreType.INJURY_RISK,
   "Abrupt arm deceleration stresses posterior shoulder (higher is riskier).",
   { warning_threshold := some 60, critical_threshold := some 80 }⟩,
  ⟨"Premature Trunk Rotation", "% before FC", ScoreType.INJURY_RISK,
   "Early trunk rotation reduces kinetic chain efficiency and can increase risk (higher is riskier).",
   { warning_threshold := some 30, critical_threshold := some 50 }⟩]

end Metrics

namespace Metrics

/-- Are an `INJURY_RISK` metric's thresholds present and ordered
(`warning_threshold < critical_threshold`)? -/
def injuryParamsSane (m : MetricInfo) : Bool :=
  match m.default_params.warning_threshold, m.default_params.critical_threshold with
  | some w, some c => decide (w < c)
  | _, _ => false

end Metrics

namespace SightFX

/-! ## Embedding of `update_combine_matrix.py` (`SightFXMetricsCalculator`)

The claims about this variant are properties of the calculator's operations
for arbitrary table contents, so metric records, bands and the two tables
are embedded as data and the operations as functions on them. -/

/-- A row of `bands_db` (`_add_band`, lines 37-51).  The `uuid4` row id plays
no role and is omitted; `metric_id` is abstracted to `Nat`. -/
structure Band where
  metric_id : Nat
  name : String
  min_value : Option ℚ := none
  max_value : Option ℚ := none
  target_value : Option ℚ := none
  score_multiplier : ℚ := 1
  invert_score_display : Bool := false
  age_group : Option String := none
  skill_level : Option String := none
deriving DecidableEq, Repr

/-- A value of `metrics_db` (`_add_metric`, lines 24-35), together with the
`"bands"` key that `_get_metric_data` adds to the stored dict (line 871):
`bands = none` models a dict without that key.  `calculate_function` is
`None` for every metric the program constructs. -/
structure MetricRecord where
  id : Nat
  name : String
  unit : String
  description : String
  is_risk_metric : Bool := false
  calculate_function : Option String := none
  score_function : String
  bands : Option (List Band) := none
deriving DecidableEq, Repr

/-- The calculator's two simulated database tables (lines 7-9).
`metrics_db` is a Python dict keyed by the metric name in insertion order
(names are unique), embedded as an ordered list of records. -/
structure CalcState where
  metrics_db : List MetricRecord
  bands_db : List Band
deriving DecidableEq, Repr

/-- The eligibility filter of `_pick_appropriate_band` (lines 880-891): a
band with both qualifiers set must match the caller's profile exactly; a
band with both unset is general; a band with exactly one set is skipped. -/
def band_eligible (b : Band) (age_group skill_level : Option String) : Bool :=
  match b.age_group, b.skill_level with
  | some ba, some bs => some ba = age_group ∧ some bs = skill_level
  | none, none => true
  | _, _ => false

/-- `1e-6`, the epsilon of the target-equality test (line 907). -/
def targetEps : ℚ := 1/1000000

/-- The per-band test of the matching loop of `_pick_appropriate_band`
(lines 895-921): the target-value checks (block 1), then the range checks
(blocks 2-4; an in-range failure in block 1 falls through to them). -/
def band_range_match (value : ℚ) (b : Band) : Bool :=
  (match b.target_value, b.min_value, b.max_value with
   | some _, some mn, some mx => decide (mn ≤ value ∧ value ≤ mx)
   | some t, _, _ => decide (|value - t| < targetEps)
   | none, _, _ => false) ||
  (match b.min_value, b.max_value with
   | some mn, some mx => decide (mn ≤ value ∧ value ≤ mx)
   | some mn, none => decide (mn ≤ value)
   | none, some mx => decide (value ≤ mx)
   | none, none => false)

/-- `_pick_appropriate_band` (lines 874-923): filter to the eligible bands,
then return the first of them (in table insertion order) that matches. -/
def pick_appropriate_band (value : ℚ) (bands_for_metric : List Band)
    (age_group skill_level : Option String) : Option Band :=
  (bands_for_metric.filter (band_eligible · age_group skill_level)).find?
    (band_range_match value)

/-- The bound test of `_get_base_score_for_optimal_bands` (lines 938-943):
the value lies within the band's stated min/max bounds (both-bounds,
min-only or max-only). -/
def band_bounds_hit (value : ℚ) (b : Band) : Bool :=
  match b.min_value, b.max_value with
  | some mn, some mx => decide (mn ≤ value ∧ value ≤ mx)
  | some mn, none => decide (mn ≤ value)
  | none, some mx => decide (value ≤ mx)
  | none, none => false

/-- The keyword list of `_get_base_score_for_optimal_bands` (line 934). -/
def optimalKeywords : List String := ["Optimal", "Elite", "Safe Zone"]

/-- `_get_base_score_for_optimal_bands` (lines 927-945).  The source loops
over the keywords and tests the bounds inside the loop; as the bound test
does not depend on the keyword, that is the same as one bound test guarded
by "some keyword occurs in the band name". -/
def get_base_score_for_optimal_bands (value : ℚ) (selected_band : Band) : Option ℚ :=
  if selected_band.invert_score_display then none
  else if (optimalKeywords.any (fun kw => strContains selected_band.name kw))
      && band_bounds_hit value selected_band then some 100
  else none

/-- `_apply_final_score_modifiers` (lines 1126-1133): multiplier, then
conditional inversion, then one clamp to [0, 100]; returns the final score
and the band name. -/
def apply_final_score_modifiers (base_score : ℚ) (band : Band) : ℚ × String :=
  let final_score := base_score * band.score_multiplier
  let final_score := if band.invert_score_display then 100 - final_score else final_score
  (max 0 (min 100 final_score), band.name)

/-- The band list a scoring function reads from `metric_data["bands"]`.
`_get_metric_data` always stores that key before a scoring function runs,
so the missing-key case (a `KeyError` that the program cannot reach) is
read as the empty list. -/
def metricBands (metric_data : MetricRecord) : List Band :=
  metric_data.bands.getD []

/-- `score_standard_range_metric` (lines 947-963). -/
def score_standard_range_metric (value : ℚ) (metric_data : MetricRecord)
    (age_group skill_level : Option String) : ℚ × String :=
  match pick_appropriate_band value (metricBands metric_data) age_group skill_level with
  | none => (0, "Value out of defined bands")
  | some selected_band =>
    match get_base_score_for_optimal_bands value selected_band with
    | some base_score => apply_final_score_modifiers base_score selected_band
    | none => apply_final_score_modifiers 100 selected_band

/-- `score_adaptive_range_metric` (lines 965-1001). -/
def score_adaptive_range_metric (value : ℚ) (metric_data : MetricRecord)
    (age_group skill_level : Option String) : ℚ × String :=
  match pick_appropriate_band value (metricBands metric_data) age_group skill_level with
  | none => (0, "Value out of defined bands")
  | some selected_band =>
    match get_base_score_for_optimal_bands value selected_band with
    | some base_score => apply_final_score_modifiers base_score selected_band
    | none =>
      let base_score :=
        match selected_band.min_value, selected_band.max_value with
        | none, none => (0 : ℚ)
        | some mn, some mx =>
          if mx - mn = 0 then (if value = mn then 100 else 0)
          else if strContains selected_band.name "Suboptimal Low"
              || strContains selected_band.name "Critical Low" then
            100 * (value - mn) / (mx - mn)
          else if strContains selected_band.name "Suboptimal High"
              || strContains selected_band.name "Critical High" then
            100 * (mx - value) / (mx - mn)
          else 100
        | some mn, none => if mn ≤ value then 100 else 0
        | none, some mx => if value ≤ mx then 100 else 0
      apply_final_score_modifiers base_score selected_band

/-- `score_higher_is_better_metric` (lines 1003-1031). -/
def score_higher_is_better_metric (value : ℚ) (metric_data : MetricRecord)
    (age_group skill_level : Option String) : ℚ × String :=
  match pick_appropriate_band value (metricBands metric_data) age_group skill_level with
  | none => (0, "Value out of defined bands")
  | some selected_band =>
    match get_base_score_for_optimal_bands value selected_band with
    | some base_score => apply_final_score_modifiers base_score selected_band
    | none =>
      let effective_min := selected_band.min_value.getD 0
      let effective_max := selected_band.max_value.getD (value * 2)
      let base_score :=
        if effective_max = effective_min then
          (if effective_max ≤ value then (100 : ℚ) else 0)
        else if effective_max ≤ value then 100
        else if value ≤ effective_min then 0
        else 100 * (value - effective_min) / (effective_max - effective_min)
      apply_final_score_modifiers base_score selected_band

/-- `score_lower_is_better_metric` (lines 1033-1061). -/
def score_lower_is_better_metric (value : ℚ) (metric_data : MetricRecord)
    (age_group skill_level : Option String) : ℚ × String :=
  match pick_appropriate_band value (metricBands metric_data) age_group skill_level with
  | none => (0, "Value out of defined bands")
  | some selected_band =>
    match get_base_score_for_optimal_bands value selected_band with
    | some base_score => apply_final_score_modifiers base_score selected_band
    | none =>
      let effective_min := selected_band.min_value.getD (value * 0.5)
      let effective_max := selected_band.max_value.getD (value * 2)
      let base_score :=
        if effective_max = effective_min then
          (if value ≤ effective_min then (100 : ℚ) else 0)
        else if value ≤ effective_min then 100
        else if effective_max ≤ value then 0
        else 100 * (effective_max - value) / (effective_max - effective_min)
      apply_final_score_modifiers base_score selected_band

/-- `score_target_based_metric` (lines 1063-1092).  `expFn` stands for
`math.exp`; it only feeds the final clamp, and every theorem below holds
for an arbitrary `expFn`. -/
def score_target_based_metric (expFn : ℚ → ℚ) (value : ℚ) (metric_data : MetricRecord)
    (age_group skill_level : Option String) : ℚ × String :=
  match pick_appropriate_band value (metricBands metric_data) age_group skill_level with
  | none => (0, "Value out of defined bands")
  | some selected_band =>
    match get_base_score_for_optimal_bands value selected_band with
    | some base_score => apply_final_score_modifiers base_score selected_band
    | none =>
      match selected_band.target_value with
      | none => (0, "Target value not defined for band.")
      | some target_val =>
        let std_dev : ℚ :=
          match selected_band.min_value, selected_band.max_value with
          | some mn, some mx =>
            if 0 < mx - mn then (mx - mn) / 4 else 0.1
          | _, _ => 0.5
        let base_score :=
          if std_dev = 0 then (if |value - target_val| < targetEps then (100 : ℚ) else 0)
          else 100 * expFn (-(0.5) * ((value - target_val) / std_dev) ^ 2)
        apply_final_score_modifiers base_score selected_band

/-- `score_risk_metric` (lines 1094-1123). -/
def score_risk_metric (value : ℚ) (metric_data : MetricRecord)
    (age_group skill_level : Option String) : ℚ × String :=
  match pick_appropriate_band value (metricBands metric_data) age_group skill_level with
  | none => (0, "Value out of defined risk zones")
  | some selected_band =>
    match get_base_score_for_optimal_bands value selected_band with
    | some base_score => apply_final_score_modifiers base_score selected_band
    | none =>
      let effective_min := selected_band.min_value.getD value
      let effective_max := selected_band.max_value.getD value
      let base_score :=
        if effective_min = effective_max then
          (if value ≤ effective_min then (100 : ℚ) else 0)
        else if value ≤ effective_min then 100
        else if effective_max ≤ value then 0
        else 100 * (effective_max - value) / (effective_max - effective_min)
      apply_final_score_modifiers base_score selected_band

/-- `get_score_interpretation` (lines 1159-1178). -/
def get_score_interpretation (score : ℚ) (is_risk_metric : Bool) : String :=
  if is_risk_metric then
    if 90 ≤ score then "SAFE 🟢"
    else if 75 ≤ score then "LOW RISK 🟡"
    else if 25 ≤ score then "MODERATE RISK 🟠"
    else "HIGH RISK 🔴"
  else
    if 90 ≤ score then "ELITE 🟢"
    else if 75 ≤ score then "GOOD 🟡"
    else if 50 ≤ score then "NEEDS IMPROVEMENT 🟠"
    else "CRITICAL ISSUE 🔴"

/-- `_get_metric_data` (lines 861-872).  Returns the looked-up record with
its `"bands"` key set, and the resulting state: the assignment
`metric["bands"] = bands` mutates the dict stored in `metrics_db`, so the
state's entry for that name is updated in place. -/
def get_metric_data (s : CalcState) (metric_name : String) :
    Option MetricRecord × CalcState :=
  match s.metrics_db.find? (·.name = metric_name) with
  | none => (none, s)
  | some metric =>
    let bands := s.bands_db.filter (·.metric_id = metric.id)
    let metric' := { metric with bands := some bands }
    (some metric',
     { s with metrics_db :=
        s.metrics_db.map (fun r => if r.name = metric_name then metric' else r) })

/-- The six scoring-method names `calculate_metric_score` can dispatch to.
A `score_function` string outside this list is modelled as the
"scoring function not found" fallback (line 1145-1146); every record the
program constructs uses one of these six names. -/
def scoreFunctionNames : List String :=
  ["score_standard_range_metric", "score_adaptive_range_metric",
   "score_higher_is_better_metric", "score_lower_is_better_metric",
   "score_target_based_metric", "score_risk_metric"]

/-- `calculate_metric_score` (lines 1136-1156).  The result quadruple is
(final score, interpretation, band name, metric data); the Python `{}`
returned for an unknown metric is modelled as `none`.  The returned state
records the band-cache mutation done by `_get_metric_data`.  The
interpolated text of the "scoring function not found" message is not
modelled. -/
def calculate_metric_score (expFn : ℚ → ℚ) (s : CalcState) (metric_name : String)
    (value : ℚ) (age_group skill_level : Option String) :
    (ℚ × String × String × Option MetricRecord) × CalcState :=
  match get_metric_data s metric_name with
  | (none, s') => ((0, "Metric not found.", "N/A", none), s')
  | (some metric_data, s') =>
    let dispatch : Option (ℚ × String) :=
      if metric_data.score_function = "score_standard_range_metric" then
        some (score_standard_range_metric value metric_data age_group skill_level)
      else if metric_data.score_function = "score_adaptive_range_metric" then
        some (score_adaptive_range_metric value metric_data age_group skill_level)
      else if metric_data.score_function = "score_higher_is_better_metric" then
        some (score_higher_is_better_metric value metric_data age_group skill_level)
      else if metric_data.score_function = "score_lower_is_better_metric" then
        some (score_lower_is_better_metric value metric_data age_group skill_level)
      else if metric_data.score_function = "score_target_based_metric" then
        some (score_target_based_metric expFn value metric_data age_group skill_level)
      else if metric_data.score_function = "score_risk_metric" then
        some (score_risk_metric value metric_data age_group skill_level)
      else none
    match dispatch with
    | none => ((0, "Scoring function not found for metric.", "N/A", some metric_data), s')
    | some (final_score, band_name) =>
      ((final_score, get_score_interpretation final_score metric_data.is_risk_metric,
        band_name, some metric_data), s')


/-! ## Specification-side definitions (written from the claims' words, to be
compared with the embedded code) -/

/-- The per-band match conditions (a)-(e) as the spec words them: (a) a
`targetValue` and an explicit [min, max] range containing the value; (b) a
`targetValue` and no explicit [min, max] range, near-exact equality; (c) both
bounds and `min ≤ value ≤ max`; (d) only `min` and `value ≥ min`; (e) only
`max` and `value ≤ max`. -/
def spec_band_match (value : ℚ) (b : Band) : Bool :=
  (b.target_value.isSome &&
    match b.min_value, b.max_value with
    | some mn, some mx => decide (mn ≤ value ∧ value ≤ mx)
    | _, _ => false) ||
  (match b.target_value with
   | some t => !(b.min_value.isSome && b.max_value.isSome)
       && decide (|value - t| < 1/1000000)
   | none => false) ||
  (match b.min_value, b.max_value with
   | some mn, some mx => decide (mn ≤ value ∧ value ≤ mx)
   | _, _ => false) ||
  (match b.min_value, b.max_value with
   | some mn, none => decide (value ≥ mn)
   | _, _ => false) ||
  (match b.min_value, b.max_value with
   | none, some mx => decide (value ≤ mx)
   | _, _ => false)

/-- The finalizer formula as the spec words it:
`finalScore = clamp(0,100, rawScore * scoreMultiplier)`, and if the band is
inversion-flagged, `finalScore = clamp(0,100, 100 - finalScore)` (multiplier
applied before inversion). -/
def spec_finalize (raw_score : ℚ) (b : Band) : ℚ :=
  let clamped := max 0 (min 100 (raw_score * b.score_multiplier))
  if b.invert_score_display then max 0 (min 100 (100 - clamped)) else clamped

/-- A general (unqualified) band used as a concrete test input. -/
def generalTestBand : Band :=
  { metric_id := 0, name := "General", min_value := some 0, max_value := some 100 }

/-- A band named "Optimal" used as a concrete test input. -/
def optimalTestBand : Band :=
  { metric_id := 0, name := "Optimal", min_value := some 10, max_value := some 20 }

/-- A metric record holding only `optimalTestBand`. -/
def optimalTestMetric : MetricRecord :=
  { id := 0, name := "X", unit := "u", description := "",
    score_function := "score_standard_range_metric", bands := some [optimalTestBand] }

/-- A metric record whose cached band list is empty. -/
def emptyBandsRecord : MetricRecord :=
  { id := 0, name := "R", unit := "u", description := "", is_risk_metric := true,
    score_function := "score_risk_metric", bands := some [] }

/-- The "Knee Lift Height" metric record as `_populate_simulated_db` adds it
(line 56): no `"bands"` key is present after construction. -/
def kneeLiftRecord : MetricRecord :=
  { id := 0, name := "Knee Lift Height", unit := "degrees",
    description := "Hip flexion angle during leg lift",
    score_function := "score_adaptive_range_metric" }

/-- The "Youth (8-12) Beginner Optimal" band of "Knee Lift Height" as
`add_adaptive_bands` adds it (lines 295-296, range (45, 60)). -/
def kneeLiftYouthBeginnerOptimal : Band :=
  { metric_id := 0, name := "Youth (8-12) Beginner Optimal",
    min_value := some 45, max_value := some 60, score_multiplier := 1,
    age_group := some "Youth (8-12)", skill_level := some "Beginner" }

/-- A calculator state holding the above record and band, as constructed. -/
def sampleState : CalcState :=
  { metrics_db := [kneeLiftRecord], bands_db := [kneeLiftYouthBeginnerOptimal] }

end SightFX

/-! ## General lemmas about the helpers -/

theorem roundHalfEven_bounds (q : ℚ) :
    (⌊q⌋ : ℤ) ≤ roundHalfEven q ∧ roundHalfEven q ≤ ⌊q⌋ + 1 := by
  unfold roundHalfEven
  split_ifs <;> omega

theorem roundHalfEven_mono {a b : ℚ} (h : a ≤ b) :
    roundHalfEven a ≤ roundHalfEven b := by
  rcases lt_or_ge ⌊a⌋ ⌊b⌋ with hf | hf
  · have h1 := (roundHalfEven_bounds a).2
    have h2 := (roundHalfEven_bounds b).1
    omega
  · have hfe : ⌊a⌋ = ⌊b⌋ := le_antisymm (Int.floor_le_floor h) hf
    have hr : a - (⌊a⌋ : ℚ) ≤ b - (⌊b⌋ : ℚ) := by
      rw [hfe]; linarith
    unfold roundHalfEven
    rw [hfe]
    rw [hfe] at hr
    split_ifs <;> first | omega | linarith

theorem round1_mono {a b : ℚ} (h : a ≤ b) : round1 a ≤ round1 b := by
  unfold round1
  have : roundHalfEven (10 * a) ≤ roundHalfEven (10 * b) :=
    roundHalfEven_mono (by linarith)
  have : ((roundHalfEven (10 * a) : ℤ) : ℚ) ≤ ((roundHalfEven (10 * b) : ℤ) : ℚ) := by
    exact_mod_cast this
  linarith

theorem round1_one : round1 1 = 1 := by
  unfold round1 roundHalfEven
  norm_num

theorem round1_hundred : round1 100 = 100 := by
  unfold round1 roundHalfEven
  norm_num

/-- Rounding to one decimal keeps a score inside [1, 100]. -/
theorem round1_mem_Icc {s : ℚ} (h1 : 1 ≤ s) (h2 : s ≤ 100) :
    1 ≤ round1 s ∧ round1 s ≤ 100 := by
  constructor
  · have := round1_mono h1; rwa [round1_one] at this
  · have := round1_mono h2; rwa [round1_hundred] at this

theorem find?_filter_eq {α : Type} (l : List α) (p q : α → Bool) :
    (l.filter p).find? q = l.find? (fun a => p a && q a) := by
  induction l with
  | nil => rfl
  | cons a t ih =>
    by_cases hp : p a <;> by_cases hq : q a <;>
      simp [List.filter_cons, List.find?_cons, hp, hq, ih]

namespace SightFX

/-- The code's per-band test coincides with the disjunction (a)-(e) of the
spec. -/
theorem band_range_match_eq_spec (value : ℚ) (b : Band) :
    band_range_match value b = spec_band_match value b := by
  rcases b with ⟨_, _, mn, mx, tv, _, _, _, _⟩
  cases tv <;> cases mn <;> cases mx <;>
    simp [band_range_match, spec_band_match, targetEps]

end SightFX

open Metrics SightFX in
/-- C2: for every metric's band list, value and optional profile, band
selection returns the first band in table insertion order that is eligible
(profile-qualified bands must match the profile exactly; general bands always
qualify) and satisfies one of the match conditions (a)-(e), and it returns no
band exactly when no eligible band satisfies any of them. -/
theorem C2_band_selection_first_eligible_match (value : ℚ) (bands : List Band)
    (age_group skill_level : Option String) :
    pick_appropriate_band value bands age_group skill_level
      = bands.find? (fun b => band_eligible b age_group skill_level
          && spec_band_match value b) ∧
    (pick_appropriate_band value bands age_group skill_level = none ↔
      ∀ b ∈ bands, ¬(band_eligible b age_group skill_level = true ∧
        spec_band_match value b = true)) := by
  have h1 : pick_appropriate_band value bands age_group skill_level
      = bands.find? (fun b => band_eligible b age_group skill_level
          && spec_band_match value b) := by
    unfold pick_appropriate_band
    rw [find?_filter_eq]
    congr 1
    funext b
    rw [band_range_match_eq_spec]
  refine ⟨h1, ?_⟩
  rw [h1, List.find?_eq_none]
  constructor
  · intro h b hb hc
    have := h b hb
    rw [hc.1, hc.2] at this
    simp at this
  · intro h b hb
    by_cases he : band_eligible b age_group skill_level = true
    · by_cases hm : spec_band_match value b = true
      · exact absurd ⟨he, hm⟩ (h b hb)
      · simp [Bool.eq_false_iff.2 hm]
    · simp [Bool.eq_false_iff.2 he]

open Metrics SightFX in
/-- C10: a band that sets exactly one of `age_group`/`skill_level` is never
selected for any caller; and when the caller supplies no profile, any
selected band has both qualifiers unset. -/
theorem C10_mixed_qualifier_bands_never_selected (value : ℚ) (bands : List Band)
    (age_group skill_level : Option String) (b : Band)
    (h : pick_appropriate_band value bands age_group skill_level = some b) :
    (¬(b.age_group.isSome = true ∧ b.skill_level = none) ∧
     ¬(b.age_group = none ∧ b.skill_level.isSome = true)) ∧
    (age_group = none → skill_level = none →
      b.age_group = none ∧ b.skill_level = none) := by
  have hmem : b ∈ bands.filter (band_eligible · age_group skill_level) :=
    List.mem_of_find?_eq_some h
  have hel : band_eligible b age_group skill_level = true :=
    (List.mem_filter.1 hmem).2
  unfold band_eligible at hel
  rcases hag : b.age_group with _ | a <;> rcases hsl : b.skill_level with _ | s <;>
      rw [hag, hsl] at hel
  · simp [hag, hsl]
  · simp at hel
  · simp at hel
  · simp only [decide_eq_true_eq] at hel
    refine ⟨by simp [hag, hsl], fun han _ => ?_⟩
    exact absurd (hel.1.trans han) (by simp)


open Metrics SightFX in
/-- Witness for C10 at a concrete input: a single general band is selected by
a profile-less call, and indeed carries no qualifier. -/
theorem C10_witness_general_band :
    pick_appropriate_band 5 [generalTestBand] none none = some generalTestBand ∧
    ¬(generalTestBand.age_group.isSome = true ∧ generalTestBand.skill_level = none) ∧
    (generalTestBand.age_group = none ∧ generalTestBand.skill_level = none) := by
  have hp : pick_appropriate_band 5 [generalTestBand] none none = some generalTestBand := by
    decide
  exact ⟨hp,
    (C10_mixed_qualifier_bands_never_selected 5 [generalTestBand] none none
      generalTestBand hp).1.1,
    (C10_mixed_qualifier_bands_never_selected 5 [generalTestBand] none none
      generalTestBand hp).2 rfl rfl⟩

open Metrics SightFX in
/-- C3: in the banded variant, every one of the six scoring functions
short-circuits to base score 100 (before the multiplier/inversion of the
finalizer, with no interpolation) whenever the selected band's name contains
"Optimal", "Elite" or "Safe Zone", the band is not inversion-flagged, and the
value lies within the band's stated min/max bounds. -/
theorem C3_optimal_band_short_circuit (expFn : ℚ → ℚ) (value : ℚ)
    (md : MetricRecord) (bs : List Band) (b : Band) (ag sl : Option String)
    (hbands : md.bands = some bs)
    (hpick : pick_appropriate_band value bs ag sl = some b)
    (hkw : (strContains b.name "Optimal" || strContains b.name "Elite"
        || strContains b.name "Safe Zone") = true)
    (hinv : b.invert_score_display = false)
    (hhit : band_bounds_hit value b = true) :
    get_base_score_for_optimal_bands value b = some 100 ∧
    score_standard_range_metric value md ag sl = apply_final_score_modifiers 100 b ∧
    score_adaptive_range_metric value md ag sl = apply_final_score_modifiers 100 b ∧
    score_higher_is_better_metric value md ag sl = apply_final_score_modifiers 100 b ∧
    score_lower_is_better_metric value md ag sl = apply_final_score_modifiers 100 b ∧
    score_target_based_metric expFn value md ag sl = apply_final_score_modifiers 100 b ∧
    score_risk_metric value md ag sl = apply_final_score_modifiers 100 b := by
  have hany : optimalKeywords.any (fun kw => strContains b.name kw) = true := by
    simp only [Bool.or_eq_true] at hkw
    rcases hkw with (h | h) | h
    · exact List.any_eq_true.2 ⟨"Optimal", by simp [optimalKeywords], h⟩
    · exact List.any_eq_true.2 ⟨"Elite", by simp [optimalKeywords], h⟩
    · exact List.any_eq_true.2 ⟨"Safe Zone", by simp [optimalKeywords], h⟩
  have hmb : metricBands md = bs := by simp [metricBands, hbands]
  have hbase : get_base_score_for_optimal_bands value b = some 100 := by
    unfold get_base_score_for_optimal_bands
    rw [hinv, hany, hhit]
    simp
  refine ⟨hbase, ?_, ?_, ?_, ?_, ?_, ?_⟩ <;>
    simp [score_standard_range_metric, score_adaptive_range_metric,
      score_higher_is_better_metric, score_lower_is_better_metric,
      score_target_based_metric, score_risk_metric, hmb, hpick, hbase]

open Metrics SightFX in
/-- Witness for C3 at a concrete input: the band "Optimal" with bounds
[10, 20] at value 15. -/
theorem C3_witness_optimal_band :
    get_base_score_for_optimal_bands 15 optimalTestBand = some 100 ∧
    score_standard_range_metric 15 optimalTestMetric none none
      = apply_final_score_modifiers 100 optimalTestBand ∧
    score_adaptive_range_metric 15 optimalTestMetric none none
      = apply_final_score_modifiers 100 optimalTestBand ∧
    score_higher_is_better_metric 15 optimalTestMetric none none
      = apply_final_score_modifiers 100 optimalTestBand ∧
    score_lower_is_better_metric 15 optimalTestMetric none none
      = apply_final_score_modifiers 100 optimalTestBand ∧
    score_target_based_metric (fun q => q) 15 optimalTestMetric none none
      = apply_final_score_modifiers 100 optimalTestBand ∧
    score_risk_metric 15 optimalTestMetric none none
      = apply_final_score_modifiers 100 optimalTestBand :=
  C3_optimal_band_short_circuit (fun q => q) 15 optimalTestMetric [optimalTestBand]
    optimalTestBand none none rfl (by decide) (by decide) rfl (by decide)

/-- Clamping `100 - x` to [0, 100] equals clamping `100 - clamp(x)`: the
code's single end clamp agrees with the spec's clamp-before-inversion. -/
theorem clamp_sub_clamp (x : ℚ) :
    max 0 (min 100 (100 - x)) = max 0 (min 100 (100 - max 0 (min 100 x))) := by
  rcases le_total x 0 with hx | hx <;> rcases le_total x 100 with hx' | hx' <;>
    simp [min_def, max_def] <;> split_ifs <;> linarith

open Metrics SightFX in
/-- C4: for every raw score and band, the code's finalizer returns exactly
the spec's clamp-before-inversion formula (together with the band name). -/
theorem C4_finalizer_matches_spec_formula (raw_score : ℚ) (b : Band) :
    apply_final_score_modifiers raw_score b = (spec_finalize raw_score b, b.name) := by
  unfold apply_final_score_modifiers spec_finalize
  by_cases hinv : b.invert_score_display = true
  · simp only [hinv, if_true]
    exact Prod.ext (clamp_sub_clamp _) rfl
  · simp only [Bool.not_eq_true] at hinv
    simp [hinv]

open Metrics SightFX in
/-- C7 counterexample: when no band matches, the risk scorer's reason string
is "Value out of defined risk zones", and even the other scorers capitalise
"Value"; none of them returns the claimed string
"value out of defined bands". -/
theorem C7_counterexample_reason_strings :
    pick_appropriate_band 0 ([] : List Band) none none = none ∧
    score_risk_metric 0 emptyBandsRecord none none
      = (0, "Value out of defined risk zones") ∧
    (score_risk_metric 0 emptyBandsRecord none none).2
      ≠ "value out of defined bands" ∧
    (score_standard_range_metric 0 emptyBandsRecord none none).2
      ≠ "value out of defined bands" := by
  refine ⟨rfl, rfl, ?_, ?_⟩ <;> decide

open Metrics SightFX in
/-- C7 (amended): whenever band selection finds no applicable band, every
scoring function returns score 0 as an ordinary result; the reason string is
"Value out of defined bands" for the five non-risk scorers and
"Value out of defined risk zones" for the risk scorer. -/
theorem C7_amended_no_band_scores_zero (expFn : ℚ → ℚ) (value : ℚ)
    (md : MetricRecord) (ag sl : Option String)
    (hpick : pick_appropriate_band value (metricBands md) ag sl = none) :
    score_standard_range_metric value md ag sl = (0, "Value out of defined bands") ∧
    score_adaptive_range_metric value md ag sl = (0, "Value out of defined bands") ∧
    score_higher_is_better_metric value md ag sl = (0, "Value out of defined bands") ∧
    score_lower_is_better_metric value md ag sl = (0, "Value out of defined bands") ∧
    score_target_based_metric expFn value md ag sl = (0, "Value out of defined bands") ∧
    score_risk_metric value md ag sl = (0, "Value out of defined risk zones") := by
  refine ⟨?_, ?_, ?_, ?_, ?_, ?_⟩ <;>
    simp [score_standard_range_metric, score_adaptive_range_metric,
      score_higher_is_better_metric, score_lower_is_better_metric,
      score_target_based_metric, score_risk_metric, hpick]

namespace SightFX

/-- The finalizer always lands in [0, 100]: its last step is the clamp. -/
theorem apply_final_fst_bounds (x : ℚ) (b : Band) :
    0 ≤ (apply_final_score_modifiers x b).1 ∧ (apply_final_score_modifiers x b).1 ≤ 100 := by
  unfold apply_final_score_modifiers
  exact ⟨le_max_left _ _, max_le (by norm_num) (min_le_left _ _)⟩

theorem score_standard_fst_bounds (v : ℚ) (md : MetricRecord) (ag sl : Option String) :
    0 ≤ (score_standard_range_metric v md ag sl).1 ∧
    (score_standard_range_metric v md ag sl).1 ≤ 100 := by
  unfold score_standard_range_metric
  split
  · exact ⟨le_refl _, by norm_num⟩
  · split <;> exact apply_final_fst_bounds _ _

theorem score_adaptive_fst_bounds (v : ℚ) (md : MetricRecord) (ag sl : Option String) :
    0 ≤ (score_adaptive_range_metric v md ag sl).1 ∧
    (score_adaptive_range_metric v md ag sl).1 ≤ 100 := by
  unfold score_adaptive_range_metric
  split
  · exact ⟨le_refl _, by norm_num⟩
  · split <;> exact apply_final_fst_bounds _ _

theorem score_higher_fst_bounds (v : ℚ) (md : MetricRecord) (ag sl : Option String) :
    0 ≤ (score_higher_is_better_metric v md ag sl).1 ∧
    (score_higher_is_better_metric v md ag sl).1 ≤ 100 := by
  unfold score_higher_is_better_metric
  split
  · exact ⟨le_refl _, by norm_num⟩
  · split <;> exact apply_final_fst_bounds _ _

theorem score_lower_fst_bounds (v : ℚ) (md : MetricRecord) (ag sl : Option String) :
    0 ≤ (score_lower_is_better_metric v md ag sl).1 ∧
    (score_lower_is_better_metric v md ag sl).1 ≤ 100 := by
  unfold score_lower_is_better_metric
  split
  · exact ⟨le_refl _, by norm_num⟩
  · split <;> exact apply_final_fst_bounds _ _

theorem score_target_fst_bounds (expFn : ℚ → ℚ) (v : ℚ) (md : MetricRecord)
    (ag sl : Option String) :
    0 ≤ (score_target_based_metric expFn v md ag sl).1 ∧
    (score_target_based_metric expFn v md ag sl).1 ≤ 100 := by
  unfold score_target_based_metric
  split
  · exact ⟨le_refl _, by norm_num⟩
  · split
    · exact apply_final_fst_bounds _ _
    · split
      · exact ⟨le_refl _, by norm_num⟩
      · exact apply_final_fst_bounds _ _

theorem score_risk_fst_bounds (v : ℚ) (md : MetricRecord) (ag sl : Option String) :
    0 ≤ (score_risk_metric v md ag sl).1 ∧
    (score_risk_metric v md ag sl).1 ≤ 100 := by
  unfold score_risk_metric
  split
  · exact ⟨le_refl _, by norm_num⟩
  · split <;> exact apply_final_fst_bounds _ _

end SightFX

open Metrics SightFX in
/-- C9: for every metric name (known or unknown), value, optional profile,
exponential model and table state, `calculate_metric_score` returns a result
(it is a total function of its inputs), and the score component always lies
in [0, 100]. -/
theorem C9_calculate_metric_score_total_in_range (expFn : ℚ → ℚ) (s : CalcState)
    (metric_name : String) (value : ℚ) (ag sl : Option String) :
    0 ≤ (calculate_metric_score expFn s metric_name value ag sl).1.1 ∧
    (calculate_metric_score expFn s metric_name value ag sl).1.1 ≤ 100 := by
  unfold calculate_metric_score
  split
  · exact ⟨le_refl _, by norm_num⟩
  · rename_i md s' heq
    dsimp only
    split
    · exact ⟨le_refl _, by norm_num⟩
    · rename_i fs bn hdisp
      split_ifs at hdisp <;>
        first
        | exact Option.noConfusion hdisp
        | (injection hdisp with hdisp'
           first
           | (have hb := score_standard_fst_bounds value md ag sl
              rw [hdisp'] at hb; exact hb)
           | (have hb := score_adaptive_fst_bounds value md ag sl
              rw [hdisp'] at hb; exact hb)
           | (have hb := score_higher_fst_bounds value md ag sl
              rw [hdisp'] at hb; exact hb)
           | (have hb := score_lower_fst_bounds value md ag sl
              rw [hdisp'] at hb; exact hb)
           | (have hb := score_target_fst_bounds expFn value md ag sl
              rw [hdisp'] at hb; exact hb)
           | (have hb := score_risk_fst_bounds value md ag sl
              rw [hdisp'] at hb; exact hb))

theorem map_congr_mem {α β : Type} {l : List α} {f g : α → β}
    (h : ∀ a ∈ l, f a = g a) : l.map f = l.map g := by
  induction l with
  | nil => rfl
  | cons a t ih =>
    simp only [List.map_cons, h a (List.mem_cons_self a t)]
    rw [ih fun x hx => h x (List.mem_cons_of_mem a hx)]

theorem find?_congr_mem {α : Type} {l : List α} {p q : α → Bool}
    (h : ∀ a ∈ l, p a = q a) : l.find? p = l.find? q := by
  induction l with
  | nil => rfl
  | cons a t ih =>
    rw [List.find?_cons, List.find?_cons, h a (List.mem_cons_self a t),
      ih fun x hx => h x (List.mem_cons_of_mem a hx)]

theorem find?_map_eq {α β : Type} (f : α → β) (p : β → Bool) (l : List α) :
    (l.map f).find? p = (l.find? (fun a => p (f a))).map f := by
  induction l with
  | nil => rfl
  | cons a t ih =>
    by_cases h : p (f a) <;> simp [List.find?_cons, h, ih]

namespace SightFX

/-- In a table with pairwise-distinct metric names (a Python dict can hold
only one entry per name), a shared name forces equality. -/
theorem eq_of_mem_of_pairwise_names {l : List MetricRecord}
    (hp : l.Pairwise (fun a b => a.name ≠ b.name)) {a b : MetricRecord}
    (ha : a ∈ l) (hb : b ∈ l) (h : a.name = b.name) : a = b := by
  induction l with
  | nil => cases ha
  | cons x t ih =>
    rcases List.pairwise_cons.1 hp with ⟨hx, ht⟩
    rcases List.mem_cons.1 ha with rfl | ha' <;> rcases List.mem_cons.1 hb with rfl | hb'
    · rfl
    · exact absurd h (hx b hb')
    · exact absurd h.symm (hx a ha')
    · exact ih ht ha' hb'

/-- The state a full scoring call leaves behind is exactly the state the
lookup helper leaves behind: the scoring functions themselves touch no
table. -/
theorem calculate_state_eq (expFn : ℚ → ℚ) (s : CalcState) (metric_name : String)
    (value : ℚ) (ag sl : Option String) :
    (calculate_metric_score expFn s metric_name value ag sl).2
      = (get_metric_data s metric_name).2 := by
  unfold calculate_metric_score
  split
  · rename_i heq
    rw [heq]
  · rename_i md s' heq
    dsimp only
    split <;> rw [heq]

/-- What `_get_metric_data` does to the state: `bands_db` untouched, and in
`metrics_db` the entry for the looked-up name gets its band list cached into
the `"bands"` key. -/
theorem get_metric_data_state (s : CalcState) (metric_name : String)
    (huniq : s.metrics_db.Pairwise (fun a b => a.name ≠ b.name)) :
    (get_metric_data s metric_name).2.bands_db = s.bands_db ∧
    (get_metric_data s metric_name).2.metrics_db
      = s.metrics_db.map (fun r =>
          if r.name = metric_name then
            { r with bands := some (s.bands_db.filter (·.metric_id = r.id)) }
          else r) := by
  unfold get_metric_data
  rcases hf : s.metrics_db.find? (fun r => r.name = metric_name) with _ | m
  · rw [hf]
    dsimp only
    refine ⟨rfl, ?_⟩
    have hnone := List.find?_eq_none.1 hf
    have hid : ∀ r ∈ s.metrics_db,
        (fun r => if r.name = metric_name then
          { r with bands := some (s.bands_db.filter (·.metric_id = r.id)) } else r) r
          = id r := by
      intro r hr
      have : ¬ r.name = metric_name := by simpa using hnone r hr
      simp [this]
    rw [map_congr_mem hid, List.map_id]
  · rw [hf]
    dsimp only
    refine ⟨rfl, ?_⟩
    have hm := List.mem_of_find?_eq_some hf
    have hname : m.name = metric_name := by simpa using List.find?_some hf
    apply map_congr_mem
    intro r hr
    by_cases h : r.name = metric_name
    · rw [if_pos h, if_pos h]
      have : r = m := eq_of_mem_of_pairwise_names huniq hr hm (h.trans hname.symm)
      rw [this]
    · rw [if_neg h, if_neg h]

/-- The band-cache write is idempotent: a second lookup leaves the state
fixed. -/
theorem get_metric_data_idempotent (s : CalcState) (metric_name : String) :
    (get_metric_data (get_metric_data s metric_name).2 metric_name).2
      = (get_metric_data s metric_name).2 := by
  rcases hf : s.metrics_db.find? (fun r => r.name = metric_name) with _ | m
  · have h1 : get_metric_data s metric_name = (none, s) := by
      unfold get_metric_data
      rw [hf]
    rw [h1]
    dsimp only
    rw [h1]
  · have hm := List.mem_of_find?_eq_some hf
    have hname : m.name = metric_name := by simpa using List.find?_some hf
    have h1 : get_metric_data s metric_name
        = (some { m with bands := some (s.bands_db.filter (·.metric_id = m.id)) },
           { s with metrics_db := s.metrics_db.map (fun r =>
               if r.name = metric_name then
                 { m with bands := some (s.bands_db.filter (·.metric_id = m.id)) }
               else r) }) := by
      unfold get_metric_data
      rw [hf]
    rw [h1]
    dsimp only
    have hfind2 : (s.metrics_db.map (fun r =>
          if r.name = metric_name then
            { m with bands := some (s.bands_db.filter (·.metric_id = m.id)) }
          else r)).find? (fun r => r.name = metric_name)
        = some { m with bands := some (s.bands_db.filter (·.metric_id = m.id)) } := by
      rw [find?_map_eq]
      have hpe : ∀ r ∈ s.metrics_db,
          decide (((fun r => if r.name = metric_name then
              { m with bands := some (s.bands_db.filter (·.metric_id = m.id)) }
              else r) r).name = metric_name)
            = decide (r.name = metric_name) := by
        intro r _
        by_cases h : r.name = metric_name
        · simp [h, hname]
        · simp [h]
      rw [find?_congr_mem hpe, hf]
      simp [hname]
    unfold get_metric_data
    rw [hfind2]
    dsimp only
    congr 1
    conv_rhs => rw [← List.map_id (s.metrics_db.map (fun r =>
      if r.name = metric_name then
        { m with bands := some (s.bands_db.filter (·.metric_id = m.id)) }
      else r))]
    apply map_congr_mem
    intro x hx
    rcases List.mem_map.1 hx with ⟨r, hr, rfl⟩
    by_cases h : r.name = metric_name
    · rw [if_pos h, if_pos (by simpa using hname)]
      rfl
    · rw [if_neg h]
      rw [if_neg (by simpa using h)]
      rfl


end SightFX

open Metrics SightFX in
/-- C8 counterexample: one scoring call on a freshly constructed state
changes `metrics_db` — `_get_metric_data` writes the cached band list into
the stored metric record — so the tables are not left unchanged. -/
theorem C8_counterexample_band_cache_mutates :
    (calculate_metric_score (fun q => q) sampleState "Knee Lift Height" 50
      (some "Youth (8-12)") (some "Beginner")).2 ≠ sampleState := by
  decide

open Metrics SightFX in
/-- C8 (amended): a scoring call leaves `bands_db` unchanged and leaves
every `metrics_db` record unchanged except that the record of the looked-up
name has the metric's band list cached into its `"bands"` entry; a repeated
call leaves the state fixed. -/
theorem C8_amended_band_cache_frame (expFn : ℚ → ℚ) (s : CalcState)
    (metric_name : String) (value : ℚ) (ag sl : Option String)
    (huniq : s.metrics_db.Pairwise (fun a b => a.name ≠ b.name)) :
    (calculate_metric_score expFn s metric_name value ag sl).2.bands_db = s.bands_db ∧
    (calculate_metric_score expFn s metric_name value ag sl).2.metrics_db
      = s.metrics_db.map (fun r =>
          if r.name = metric_name then
            { r with bands := some (s.bands_db.filter (·.metric_id = r.id)) }
          else r) ∧
    (calculate_metric_score expFn
        (calculate_metric_score expFn s metric_name value ag sl).2
        metric_name value ag sl).2
      = (calculate_metric_score expFn s metric_name value ag sl).2 := by
  rw [calculate_state_eq, calculate_state_eq]
  exact ⟨(get_metric_data_state s metric_name huniq).1,
    (get_metric_data_state s metric_name huniq).2,
    get_metric_data_idempotent s metric_name⟩

open Metrics SightFX in
/-- Witness for C8 at a concrete input: the sample state built from the
program's "Knee Lift Height" data. -/
theorem C8_witness_sample_state :
    (calculate_metric_score (fun q => q) sampleState "Knee Lift Height" 50
      none none).2.bands_db = sampleState.bands_db ∧
    (calculate_metric_score (fun q => q) sampleState "Knee Lift Height" 50
      none none).2.metrics_db
      = sampleState.metrics_db.map (fun r =>
          if r.name = "Knee Lift Height" then
            { r with bands := some (sampleState.bands_db.filter (·.metric_id = r.id)) }
          else r) ∧
    (calculate_metric_score (fun q => q)
        (calculate_metric_score (fun q => q) sampleState "Knee Lift Height" 50
          none none).2
        "Knee Lift Height" 50 none none).2
      = (calculate_metric_score (fun q => q) sampleState "Knee Lift Height" 50
          none none).2 :=
  C8_amended_band_cache_frame (fun q => q) sampleState "Knee Lift Height" 50
    none none (by simp [sampleState])

open Metrics SightFX in
/-- Witness for C7 at a concrete input: a record with an empty band list. -/
theorem C7_witness_empty_bands :
    pick_appropriate_band 0 (metricBands emptyBandsRecord) none none = none ∧
    score_standard_range_metric 0 emptyBandsRecord none none
      = (0, "Value out of defined bands") ∧
    score_risk_metric 0 emptyBandsRecord none none
      = (0, "Value out of defined risk zones") :=
  ⟨rfl,
   (C7_amended_no_band_scores_zero (fun q => q) 0 emptyBandsRecord none none rfl).1,
   (C7_amended_no_band_scores_zero (fun q => q) 0 emptyBandsRecord none none
     rfl).2.2.2.2.2⟩

namespace Metrics

/-- Full characterisation of an `Ok` result of the pre-rounding score: it
lies in [MIN_SCORE_VALUE, 100], and it equals MIN_SCORE_VALUE at/beyond the
extreme threshold of each scoring kind. -/
theorem calculate_score_raw_full (m : MetricInfo) (v s : ℚ)
    (h : calculate_score_raw m v = Except.ok s) :
    (MIN_SCORE_VALUE ≤ s ∧ s ≤ 100) ∧
    (∀ om oM, m.score_type = ScoreType.OPTIMAL_RANGE →
      m.default_params.optimal_min = some om →
      m.default_params.optimal_max = some oM →
      (v ≤ finalBadLowThreshold m.default_params om oM ∨
       finalBadHighThreshold m.unit m.default_params om oM ≤ v) →
      s = MIN_SCORE_VALUE) ∧
    (∀ pt, m.score_type = ScoreType.LOWER_IS_BETTER →
      m.default_params.poor_threshold = some pt → pt ≤ v → s = MIN_SCORE_VALUE) ∧
    (m.score_type = ScoreType.HIGHER_IS_BETTER → v ≤ 0 → s = MIN_SCORE_VALUE) ∧
    (∀ wt ct, m.score_type = ScoreType.INJURY_RISK →
      m.default_params.warning_threshold = some wt →
      m.default_params.critical_threshold = some ct → wt < ct → ct ≤ v →
      s = MIN_SCORE_VALUE) := by
  unfold calculate_score_raw at h
  rcases hty : m.score_type
  -- OPTIMAL_RANGE
  · simp only [hty] at h
    rcases hom : m.default_params.optimal_min with _ | om
    · simp [hom] at h
    rcases hoM : m.default_params.optimal_max with _ | oM
    · simp [hom, hoM] at h
    simp only [hom, hoM] at h
    by_cases h1 : om ≤ oM
    swap
    · simp [h1] at h
    rw [if_neg (not_not_intro h1)] at h
    by_cases h2 : finalBadLowThreshold m.default_params om oM < om
    swap
    · simp [h2] at h
    rw [if_neg (not_not_intro h2)] at h
    by_cases h3 : oM < finalBadHighThreshold m.unit m.default_params om oM
    swap
    · simp [h3] at h
    rw [if_neg (not_not_intro h3)] at h
    by_cases h4 : om ≤ v ∧ v ≤ oM
    · rw [if_pos h4] at h
      simp only [Except.ok.injEq] at h
      subst h
      refine ⟨by norm_num [MIN_SCORE_VALUE], ?_,
        fun _ h' _ _ => ScoreType.noConfusion h',
        fun h' _ => ScoreType.noConfusion h',
        fun _ _ h' _ _ _ _ => ScoreType.noConfusion h'⟩
      intro om' oM' _ hom' hoM' hext
      obtain rfl : om = om' := Option.some.inj hom'
      obtain rfl : oM = oM' := Option.some.inj hoM'
      rcases hext with hext | hext
      · exact absurd h4.1 (by linarith)
      · exact absurd h4.2 (by linarith)
    rw [if_neg h4] at h
    by_cases h5 : v < om
    · rw [if_pos h5] at h
      by_cases h6 : v ≤ finalBadLowThreshold m.default_params om oM
      · rw [if_pos h6] at h
        simp only [Except.ok.injEq] at h
        subst h
        exact ⟨by norm_num [MIN_SCORE_VALUE], fun _ _ _ _ _ _ => rfl,
          fun _ h' _ _ => ScoreType.noConfusion h',
          fun h' _ => ScoreType.noConfusion h',
          fun _ _ h' _ _ _ _ => ScoreType.noConfusion h'⟩
      · rw [if_neg h6] at h
        simp only [Except.ok.injEq] at h
        subst h
        have ht : (v - finalBadLowThreshold m.default_params om oM) /
            (om - finalBadLowThreshold m.default_params om oM) ≤ 1 :=
          (div_le_one (by linarith)).2 (by linarith)
        refine ⟨⟨le_max_left _ _,
          max_le (by norm_num [MIN_SCORE_VALUE]) (by unfold MIN_SCORE_VALUE; linarith)⟩,
          ?_, fun _ h' _ _ => ScoreType.noConfusion h',
          fun h' _ => ScoreType.noConfusion h',
          fun _ _ h' _ _ _ _ => ScoreType.noConfusion h'⟩
        intro om' oM' _ hom' hoM' hext
        obtain rfl : om = om' := Option.some.inj hom'
        obtain rfl : oM = oM' := Option.some.inj hoM'
        rcases hext with hext | hext
        · exact absurd hext h6
        · exact absurd hext (by linarith)
    rw [if_neg h5] at h
    by_cases h7 : oM < v
    · rw [if_pos h7] at h
      by_cases h8 : finalBadHighThreshold m.unit m.default_params om oM ≤ v
      · rw [if_pos h8] at h
        simp only [Except.ok.injEq] at h
        subst h
        exact ⟨by norm_num [MIN_SCORE_VALUE], fun _ _ _ _ _ _ => rfl,
          fun _ h' _ _ => ScoreType.noConfusion h',
          fun h' _ => ScoreType.noConfusion h',
          fun _ _ h' _ _ _ _ => ScoreType.noConfusion h'⟩
      · rw [if_neg h8] at h
        simp only [Except.ok.injEq] at h
        subst h
        have ht : 0 ≤ (v - oM) /
            (finalBadHighThreshold m.unit m.default_params om oM - oM) :=
          div_nonneg (by linarith) (by linarith)
        refine ⟨⟨le_max_left _ _,
          max_le (by norm_num [MIN_SCORE_VALUE]) (by unfold MIN_SCORE_VALUE; linarith)⟩,
          ?_, fun _ h' _ _ => ScoreType.noConfusion h',
          fun h' _ => ScoreType.noConfusion h',
          fun _ _ h' _ _ _ _ => ScoreType.noConfusion h'⟩
        intro om' oM' _ hom' hoM' hext
        obtain rfl : om = om' := Option.some.inj hom'
        obtain rfl : oM = oM' := Option.some.inj hoM'
        rcases hext with hext | hext
        · exact absurd hext (by linarith)
        · exact absurd hext h8
    · exact absurd ⟨le_of_not_lt h5, le_of_not_lt h7⟩ h4
  -- LOWER_IS_BETTER
  · simp only [hty] at h
    rcases hub : m.default_params.optimal_upper_bound with _ | oub
    · simp [hub] at h
    rcases hpt : m.default_params.poor_threshold with _ | pt
    · simp [hub, hpt] at h
    simp only [hub, hpt] at h
    by_cases h1 : 0 ≤ oub ∧ oub < pt
    swap
    · simp [h1] at h
    rw [if_neg (not_not_intro h1)] at h
    by_cases h2 : v ≤ oub
    · rw [if_pos h2] at h
      simp only [Except.ok.injEq] at h
      subst h
      refine ⟨by norm_num [MIN_SCORE_VALUE],
        fun _ _ h' _ _ _ => ScoreType.noConfusion h', ?_,
        fun h' _ => ScoreType.noConfusion h',
        fun _ _ h' _ _ _ _ => ScoreType.noConfusion h'⟩
      intro pt' _ hpt' hle
      obtain rfl : pt = pt' := Option.some.inj hpt'
      exact absurd hle (by linarith)
    rw [if_neg h2] at h
    by_cases h3 : pt ≤ v
    · rw [if_pos h3] at h
      simp only [Except.ok.injEq] at h
      subst h
      exact ⟨by norm_num [MIN_SCORE_VALUE],
        fun _ _ h' _ _ _ => ScoreType.noConfusion h',
        fun _ _ _ _ => rfl,
        fun h' _ => ScoreType.noConfusion h',
        fun _ _ h' _ _ _ _ => ScoreType.noConfusion h'⟩
    · rw [if_neg h3] at h
      simp only [Except.ok.injEq] at h
      subst h
      have ht : 0 ≤ (v - oub) / (pt - oub) :=
        div_nonneg (by linarith) (by linarith)
      refine ⟨⟨le_max_left _ _,
        max_le (by norm_num [MIN_SCORE_VALUE]) (by unfold MIN_SCORE_VALUE; linarith)⟩,
        fun _ _ h' _ _ _ => ScoreType.noConfusion h', ?_,
        fun h' _ => ScoreType.noConfusion h',
        fun _ _ h' _ _ _ _ => ScoreType.noConfusion h'⟩
      intro pt' _ hpt' hle
      obtain rfl : pt = pt' := Option.some.inj hpt'
      exact absurd hle h3
  -- HIGHER_IS_BETTER
  · simp only [hty] at h
    rcases holb : m.default_params.optimal_lower_bound with _ | olb
    · simp [holb] at h
    simp only [holb] at h
    by_cases h1 : olb ≤ 0
    · simp [h1] at h
    rw [if_neg h1] at h
    by_cases h2 : olb ≤ v
    · rw [if_pos h2] at h
      simp only [Except.ok.injEq] at h
      subst h
      refine ⟨by norm_num [MIN_SCORE_VALUE],
        fun _ _ h' _ _ _ => ScoreType.noConfusion h',
        fun _ h' _ _ => ScoreType.noConfusion h', ?_,
        fun _ _ h' _ _ _ _ => ScoreType.noConfusion h'⟩
      intro _ hle
      exact absurd hle (by linarith)
    rw [if_neg h2] at h
    by_cases h3 : v ≤ 0
    · rw [if_pos h3] at h
      simp only [Except.ok.injEq] at h
      subst h
      exact ⟨by norm_num [MIN_SCORE_VALUE],
        fun _ _ h' _ _ _ => ScoreType.noConfusion h',
        fun _ h' _ _ => ScoreType.noConfusion h',
        fun _ _ => rfl,
        fun _ _ h' _ _ _ _ => ScoreType.noConfusion h'⟩
    · rw [if_neg h3] at h
      simp only [Except.ok.injEq] at h
      subst h
      have ht : v / olb ≤ 1 := (div_le_one (by linarith)).2 (by linarith)
      refine ⟨⟨le_max_left _ _,
        max_le (by norm_num [MIN_SCORE_VALUE]) (by linarith)⟩,
        fun _ _ h' _ _ _ => ScoreType.noConfusion h',
        fun _ h' _ _ => ScoreType.noConfusion h', ?_,
        fun _ _ h' _ _ _ _ => ScoreType.noConfusion h'⟩
      intro _ hle
      exact absurd hle h3
  -- INJURY_RISK
  · simp only [hty] at h
    rcases hwt : m.default_params.warning_threshold with _ | wt
    · simp [hwt] at h
    rcases hct : m.default_params.critical_threshold with _ | ct
    · simp [hwt, hct] at h
    simp only [hwt, hct] at h
    by_cases h1 : ct ≤ wt
    · rw [if_pos h1] at h
      by_cases h2 : v ≤ wt
      · rw [if_pos h2] at h
        simp only [Except.ok.injEq] at h
        subst h
        refine ⟨by norm_num [MIN_SCORE_VALUE],
          fun _ _ h' _ _ _ => ScoreType.noConfusion h',
          fun _ h' _ _ => ScoreType.noConfusion h',
          fun h' _ => ScoreType.noConfusion h', ?_⟩
        intro wt' ct' _ hwt' hct' hlt _
        obtain rfl : wt = wt' := Option.some.inj hwt'
        obtain rfl : ct = ct' := Option.some.inj hct'
        exact absurd h1 (by linarith)
      · rw [if_neg h2] at h
        simp only [Except.ok.injEq] at h
        subst h
        exact ⟨by norm_num [MIN_SCORE_VALUE],
          fun _ _ h' _ _ _ => ScoreType.noConfusion h',
          fun _ h' _ _ => ScoreType.noConfusion h',
          fun h' _ => ScoreType.noConfusion h',
          fun _ _ _ _ _ _ _ => rfl⟩
    rw [if_neg h1] at h
    by_cases h2 : v ≤ wt
    · rw [if_pos h2] at h
      simp only [Except.ok.injEq] at h
      subst h
      refine ⟨by norm_num [MIN_SCORE_VALUE],
        fun _ _ h' _ _ _ => ScoreType.noConfusion h',
        fun _ h' _ _ => ScoreType.noConfusion h',
        fun h' _ => ScoreType.noConfusion h', ?_⟩
      intro wt' ct' _ hwt' hct' hlt hle
      obtain rfl : wt = wt' := Option.some.inj hwt'
      obtain rfl : ct = ct' := Option.some.inj hct'
      exact absurd hle (by linarith)
    rw [if_neg h2] at h
    by_cases h3 : ct ≤ v
    · rw [if_pos h3] at h
      simp only [Except.ok.injEq] at h
      subst h
      exact ⟨by norm_num [MIN_SCORE_VALUE],
        fun _ _ h' _ _ _ => ScoreType.noConfusion h',
        fun _ h' _ _ => ScoreType.noConfusion h',
        fun h' _ => ScoreType.noConfusion h',
        fun _ _ _ _ _ _ _ => rfl⟩
    · rw [if_neg h3] at h
      simp only [Except.ok.injEq] at h
      subst h
      have ht : 0 ≤ (v - wt) / (ct - wt) :=
        div_nonneg (by linarith) (by linarith)
      refine ⟨⟨le_max_left _ _,
        max_le (by norm_num [MIN_SCORE_VALUE]) (by unfold MIN_SCORE_VALUE; linarith)⟩,
        fun _ _ h' _ _ _ => ScoreType.noConfusion h',
        fun _ h' _ _ => ScoreType.noConfusion h',
        fun h' _ => ScoreType.noConfusion h', ?_⟩
      intro wt' ct' _ hwt' hct' hlt hle
      obtain rfl : wt = wt' := Option.some.inj hwt'
      obtain rfl : ct = ct' := Option.some.inj hct'
      exact absurd hle h3

end Metrics

namespace Metrics

/-- Every `INJURY_RISK` metric of the catalog has both thresholds present
and ordered: checked entry by entry. -/
theorem catalog_injury_sane :
    ∀ m ∈ ALL_METRICS, m.score_type = ScoreType.INJURY_RISK →
      injuryParamsSane m = true := by decide

/-- An `Ok` result of `calculate_score` comes from an `Ok` pre-rounding
score via `round1`. -/
theorem calculate_score_ok_inv (m : MetricInfo) (v s : ℚ)
    (h : calculate_score m v = Except.ok s) :
    ∃ s0, calculate_score_raw m v = Except.ok s0 ∧ s = round1 s0 := by
  unfold calculate_score at h
  cases hr : calculate_score_raw m v with
  | error e => rw [hr] at h; simp [Except.map] at h
  | ok s0 =>
    rw [hr] at h
    simp only [Except.map, Except.ok.injEq] at h
    exact ⟨s0, rfl, h.symm⟩

end Metrics

open Metrics in
/-- C6: for every metric in the `ALL_METRICS` catalog and every value for
which `calculate_score` returns without raising, the returned score lies in
[MIN_SCORE_VALUE, 100] (the floor is 1.0), and the score equals the floor at
and beyond the documented extreme threshold of each scoring kind: at/below
the effective bad-low and at/above the effective bad-high threshold for
OPTIMAL_RANGE, at/above `poor_threshold` for LOWER_IS_BETTER, at/below 0 for
HIGHER_IS_BETTER, and at/above `critical_threshold` for INJURY_RISK. -/
theorem C6_scores_floored_and_capped :
    ∀ m ∈ ALL_METRICS, ∀ v s, calculate_score m v = Except.ok s →
    (MIN_SCORE_VALUE ≤ s ∧ s ≤ 100) ∧
    (∀ om oM, m.score_type = ScoreType.OPTIMAL_RANGE →
      m.default_params.optimal_min = some om →
      m.default_params.optimal_max = some oM →
      (v ≤ finalBadLowThreshold m.default_params om oM ∨
       finalBadHighThreshold m.unit m.default_params om oM ≤ v) →
      s = MIN_SCORE_VALUE) ∧
    (∀ pt, m.score_type = ScoreType.LOWER_IS_BETTER →
      m.default_params.poor_threshold = some pt → pt ≤ v → s = MIN_SCORE_VALUE) ∧
    (m.score_type = ScoreType.HIGHER_IS_BETTER → v ≤ 0 → s = MIN_SCORE_VALUE) ∧
    (∀ ct, m.score_type = ScoreType.INJURY_RISK →
      m.default_params.critical_threshold = some ct → ct ≤ v →
      s = MIN_SCORE_VALUE) := by
  intro m hmem v s h
  obtain ⟨s0, hraw, rfl⟩ := calculate_score_ok_inv m v s h
  have H := calculate_score_raw_full m v s0 hraw
  have hround_min : round1 MIN_SCORE_VALUE = MIN_SCORE_VALUE := by
    unfold MIN_SCORE_VALUE
    exact round1_one
  refine ⟨?_, ?_, ?_, ?_, ?_⟩
  · have hb := H.1
    have h1 := round1_mono hb.1
    have h2 := round1_mono hb.2
    rw [hround_min] at h1
    rw [round1_hundred] at h2
    exact ⟨h1, h2⟩
  · intro om oM hty hom hoM hext
    rw [H.2.1 om oM hty hom hoM hext, hround_min]
  · intro pt hty hpt hle
    rw [H.2.2.1 pt hty hpt hle, hround_min]
  · intro hty hle
    rw [H.2.2.2.1 hty hle, hround_min]
  · intro ct hty hct hle
    have hsane := catalog_injury_sane m hmem hty
    unfold injuryParamsSane at hsane
    rcases hw : m.default_params.warning_threshold with _ | wt
    · rw [hw, hct] at hsane
      simp at hsane
    · rw [hw, hct] at hsane
      simp only [decide_eq_true_eq] at hsane
      rw [H.2.2.2.2 wt ct hty hw hct hsane hle, hround_min]

open Metrics in
/-- Witness for C6 at a concrete input: the catalog head "Knee Lift Height"
scored at 45 returns 100, which the theorem bounds to [1, 100]. -/
theorem C6_witness_knee_lift :
    metricKneeLiftHeight ∈ ALL_METRICS ∧
    calculate_score metricKneeLiftHeight 45 = Except.ok 100 ∧
    (MIN_SCORE_VALUE ≤ (100 : ℚ) ∧ (100 : ℚ) ≤ 100) := by
  have hmem : metricKneeLiftHeight ∈ ALL_METRICS := by
    unfold ALL_METRICS
    exact List.mem_cons_self _ _
  have hcalc : calculate_score metricKneeLiftHeight 45 = Except.ok 100 := by
    have hraw : calculate_score_raw metricKneeLiftHeight 45 = Except.ok 100 := by
      unfold calculate_score_raw metricKneeLiftHeight
        finalBadLowThreshold finalBadHighThreshold
      norm_num [show ¬(("°" : String) = "%") from by decide]
    unfold calculate_score
    rw [hraw]
    simp only [Except.map]
    rw [round1_hundred]
  exact ⟨hmem, hcalc,
    (C6_scores_floored_and_capped metricKneeLiftHeight hmem 45 100 hcalc).1⟩

open Metrics in
/-- C1 (code-bug evidence): the two `OptimalRange` catalog entries the claim
singles out, "Balance Duration" and "Weight Distribution (Windup)", fail the
validations of `calculate_score` — the first stores a `bad_high_threshold`
(0.8) below its `optimal_max` (0.9), the second a `bad_low_threshold` (80)
above its `optimal_min` (75), contradicting the adjoining code comment — so
`calculate_score` raises even for values inside the optimal range instead of
returning 100.0. -/
theorem C1_optimal_catalog_entries_always_raise :
    metricBalanceDuration ∈ ALL_METRICS ∧
    metricBalanceDuration.score_type = ScoreType.OPTIMAL_RANGE ∧
    metricBalanceDuration.default_params.optimal_min = some 0.3 ∧
    metricBalanceDuration.default_params.optimal_max = some 0.9 ∧
    ((0.3 : ℚ) ≤ 0.5 ∧ (0.5 : ℚ) ≤ 0.9) ∧
    calculate_score metricBalanceDuration 0.5
      = Except.error ScoreError.badHighNotAboveOptimalMax ∧
    metricWeightDistributionWindup ∈ ALL_METRICS ∧
    metricWeightDistributionWindup.score_type = ScoreType.OPTIMAL_RANGE ∧
    metricWeightDistributionWindup.default_params.optimal_min = some 75 ∧
    metricWeightDistributionWindup.default_params.optimal_max = some 85 ∧
    ((75 : ℚ) ≤ 80 ∧ (80 : ℚ) ≤ 85) ∧
    calculate_score metricWeightDistributionWindup 80
      = Except.error ScoreError.badLowNotBelowOptimalMin := by
  refine ⟨?_, rfl, rfl, rfl, by norm_num, ?_, ?_, rfl, rfl, rfl, by norm_num, ?_⟩
  · unfold ALL_METRICS
    exact List.mem_cons_of_mem _ (List.mem_cons_self _ _)
  · unfold calculate_score calculate_score_raw metricBalanceDuration
      finalBadLowThreshold finalBadHighThreshold
    norm_num [Except.map]
  · unfold ALL_METRICS
    iterate 3 apply List.mem_cons_of_mem
    exact List.mem_cons_self _ _
  · unfold calculate_score calculate_score_raw metricWeightDistributionWindup
      finalBadLowThreshold finalBadHighThreshold
    norm_num [Except.map]

open Metrics in
/-- C5 counterexample: for the catalog's InjuryRisk metric
"Elbow Valgus Torque" (warning 40 < critical 55), the two distinct values
47.5 and 47.501 both lie strictly between the thresholds yet both return the
same rounded score 50.5, so the returned score is not strictly decreasing
after the rounding to one decimal place. -/
theorem C5_counterexample_rounding_plateau :
    metricElbowValgusTorque ∈ ALL_METRICS ∧
    metricElbowValgusTorque.score_type = ScoreType.INJURY_RISK ∧
    metricElbowValgusTorque.default_params.warning_threshold = some 40 ∧
    metricElbowValgusTorque.default_params.critical_threshold = some 55 ∧
    ((40 : ℚ) < 55 ∧ (40 : ℚ) < 47.5 ∧ (47.5 : ℚ) < 47.501 ∧ (47.501 : ℚ) < 55) ∧
    calculate_score metricElbowValgusTorque 47.5 = Except.ok 50.5 ∧
    calculate_score metricElbowValgusTorque 47.501 = Except.ok 50.5 := by
  refine ⟨?_, rfl, rfl, rfl, by norm_num, ?_, ?_⟩
  · unfold ALL_METRICS
    iterate 56 apply List.mem_cons_of_mem
    exact List.mem_cons_self _ _
  · have hraw : calculate_score_raw metricElbowValgusTorque 47.5
        = Except.ok (101/2) := by
      unfold calculate_score_raw metricElbowValgusTorque
      norm_num [MIN_SCORE_VALUE]
    unfold calculate_score
    rw [hraw]
    simp only [Except.map, Except.ok.injEq]
    unfold round1 roundHalfEven
    norm_num
  · have hraw : calculate_score_raw metricElbowValgusTorque 47.501
        = Except.ok (252467/5000) := by
      unfold calculate_score_raw metricElbowValgusTorque
      norm_num [MIN_SCORE_VALUE]
    unfold calculate_score
    rw [hraw]
    simp only [Except.map, Except.ok.injEq]
    unfold round1 roundHalfEven
    norm_num

open Metrics in
/-- C5 (amended): for every InjuryRisk metric whose parameters satisfy
`warning_threshold < critical_threshold`, `calculate_score` returns 100 at
the warning threshold and the floor (1.0) at the critical threshold; the
pre-rounding score is strictly decreasing strictly between the thresholds,
and the returned score (after the rounding to one decimal place) is
non-increasing there. -/
theorem C5_amended_injury_risk_monotone (m : MetricInfo) (w c : ℚ)
    (hty : m.score_type = ScoreType.INJURY_RISK)
    (hw : m.default_params.warning_threshold = some w)
    (hc : m.default_params.critical_threshold = some c)
    (hlt : w < c) :
    calculate_score m w = Except.ok 100 ∧
    calculate_score m c = Except.ok MIN_SCORE_VALUE ∧
    (∀ v1 v2 s1 s2, w < v1 → v1 < v2 → v2 < c →
      calculate_score_raw m v1 = Except.ok s1 →
      calculate_score_raw m v2 = Except.ok s2 → s2 < s1) ∧
    (∀ v1 v2 s1 s2, w < v1 → v1 < v2 → v2 < c →
      calculate_score m v1 = Except.ok s1 →
      calculate_score m v2 = Except.ok s2 → s2 ≤ s1) := by
  have hraw : ∀ v, w < v → v < c → calculate_score_raw m v
      = Except.ok (100 - (v - w) / (c - w) * (100 - MIN_SCORE_VALUE)) := by
    intro v hv1 hv2
    unfold calculate_score_raw
    simp only [hty, hw, hc]
    rw [if_neg (not_le.2 hlt), if_neg (not_le.2 hv1), if_neg (not_le.2 hv2)]
    have ht : (v - w) / (c - w) < 1 := (div_lt_one (by linarith)).2 (by linarith)
    rw [max_eq_right (by unfold MIN_SCORE_VALUE; linarith)]
  have hw100 : calculate_score m w = Except.ok 100 := by
    have h0 : calculate_score_raw m w = Except.ok 100 := by
      unfold calculate_score_raw
      simp only [hty, hw, hc]
      rw [if_neg (not_le.2 hlt), if_pos (le_refl w)]
    unfold calculate_score
    rw [h0]
    simp only [Except.map]
    rw [round1_hundred]
  have hcMin : calculate_score m c = Except.ok MIN_SCORE_VALUE := by
    have h0 : calculate_score_raw m c = Except.ok MIN_SCORE_VALUE := by
      unfold calculate_score_raw
      simp only [hty, hw, hc]
      rw [if_neg (not_le.2 hlt), if_neg (not_le.2 hlt), if_pos (le_refl c)]
    unfold calculate_score
    rw [h0]
    simp only [Except.map]
    unfold MIN_SCORE_VALUE
    rw [round1_one]
  have hstrict : ∀ v1 v2 s1 s2, w < v1 → v1 < v2 → v2 < c →
      calculate_score_raw m v1 = Except.ok s1 →
      calculate_score_raw m v2 = Except.ok s2 → s2 < s1 := by
    intro v1 v2 s1 s2 h1 h2 h3 e1 e2
    rw [hraw v1 h1 (h2.trans h3)] at e1
    rw [hraw v2 (h1.trans h2) h3] at e2
    simp only [Except.ok.injEq] at e1 e2
    subst e1
    subst e2
    have hd : (v1 - w) / (c - w) < (v2 - w) / (c - w) :=
      div_lt_div_of_pos_right (by linarith) (by linarith)
    unfold MIN_SCORE_VALUE
    nlinarith [hd]
  refine ⟨hw100, hcMin, hstrict, ?_⟩
  intro v1 v2 s1 s2 h1 h2 h3 e1 e2
  obtain ⟨t1, ht1, rfl⟩ := calculate_score_ok_inv m v1 s1 e1
  obtain ⟨t2, ht2, rfl⟩ := calculate_score_ok_inv m v2 s2 e2
  exact round1_mono (le_of_lt (hstrict v1 v2 t1 t2 h1 h2 h3 ht1 ht2))

open Metrics in
/-- Witness for C5 at a concrete input: "Elbow Valgus Torque"
(warning 40, critical 55); scores at the thresholds, and the strict drop of
the pre-rounding score from 67 at value 45 to 34 at value 50. -/
theorem C5_witness_elbow_valgus :
    (40 : ℚ) < 55 ∧
    calculate_score metricElbowValgusTorque 40 = Except.ok 100 ∧
    calculate_score metricElbowValgusTorque 55 = Except.ok MIN_SCORE_VALUE ∧
    calculate_score_raw metricElbowValgusTorque 45 = Except.ok 67 ∧
    calculate_score_raw metricElbowValgusTorque 50 = Except.ok 34 ∧
    (34 : ℚ) < 67 := by
  have h := C5_amended_injury_risk_monotone metricElbowValgusTorque 40 55
    rfl rfl rfl (by norm_num)
  have h45 : calculate_score_raw metricElbowValgusTorque 45 = Except.ok 67 := by
    unfold calculate_score_raw metricElbowValgusTorque
    norm_num [MIN_SCORE_VALUE]
  have h50 : calculate_score_raw metricElbowValgusTorque 50 = Except.ok 34 := by
    unfold calculate_score_raw metricElbowValgusTorque
    norm_num [MIN_SCORE_VALUE]
  exact ⟨by norm_num, h.1, h.2.1, h45, h50,
    h.2.2.1 45 50 67 34 (by norm_num) (by norm_num) (by norm_num) h45 h50⟩
